import Mathlib

/-!
Verification of the aria-at-automation-nvda-builds pipeline scripts.

Shallow embedding of the Python sources under `scripts/`:
`get_latest_nvda.py`, `workflow_tasks.py`, `configure_nvda.py`,
`clone_nvda_plugin.py`, `test_nvda_portable.py`.

Effects are made explicit: the filesystem is a map from paths to contents,
HTTP responses and socket behaviour are parameters, and the process state
(current working directory) is threaded explicitly.
-/

/-- The uniform step-result shape returned by every workflow task in
`workflow_tasks.py`: a `success` flag plus an optional error message. -/
structure TaskResult where
  success : Bool
  error : Option String
deriving Repr, DecidableEq

/- ## Version Resolver: get_latest_nvda.py -/

/-- Embeds `get_nvda_download_url` (get_latest_nvda.py:53-63):
`f"https://download.nvaccess.org/releases/{version}/nvda_{version}.exe"`. -/
def get_nvda_download_url (version : String) : String :=
  "https://download.nvaccess.org/releases/" ++ version ++ "/nvda_" ++ version ++ ".exe"

/-- Consume a maximal nonempty run of decimal digits (regex `\d+`);
returns the digits and the rest, or `none` if the first char is not a digit. -/
def takeDigits1 (cs : List Char) : Option (List Char × List Char) :=
  match cs.takeWhile Char.isDigit with
  | [] => none
  | d => some (d, cs.dropWhile Char.isDigit)

/-- Match a literal character sequence at the front of the input. -/
def litChars : List Char → List Char → Option (List Char)
  | [], s => some s
  | _ :: _, [] => none
  | c :: cs, x :: xs => if x = c then litChars cs xs else none

/-- Python `\s`: the ASCII whitespace class `[ \t\n\v\f\r]`. -/
def isPySpace (c : Char) : Bool :=
  c = ' ' || c = '\t' || c = '\n' || c = '\x0b' || c = '\x0c' || c = '\r'

/-- Regex `\s+`: require at least one whitespace char, consume greedily. -/
def takeSpaces1 (cs : List Char) : Option (List Char) :=
  match cs with
  | [] => none
  | c :: rest => if isPySpace c then some (rest.dropWhile isPySpace) else none

/-- Regex `c?`: consume one occurrence of `c` if present. -/
def optChar (c : Char) : List Char → List Char
  | [] => []
  | x :: xs => if x = c then xs else x :: xs

/-- Full match of `\d+\.\d+\.\d+` against the whole input (the dotted
numeric version pattern the spec refers to). -/
def dottedNumeric (cs : List Char) : Bool :=
  (do
    let (_, r) ← takeDigits1 cs
    let r ← litChars ['.'] r
    let (_, r) ← takeDigits1 r
    let r ← litChars ['.'] r
    let (_, r) ← takeDigits1 r
    if r = [] then some () else none).isSome

/-- A version string matching the dotted numeric pattern `\d+\.\d+\.\d+`. -/
def matchesDottedNumeric (s : String) : Bool :=
  dottedNumeric s.data

/-- Attempt of the regex
`stable\s+\\?->\s+\.?\.?/?\.?/?(\d+\.\d+\.\d+)` (get_latest_nvda.py:33)
anchored at the current position; returns the captured version.
Every subpattern boundary here is between disjoint character classes, so the
greedy left-to-right reading is exactly Python's backtracking semantics. -/
def matchStableAt (s : List Char) : Option (List Char) := do
  let s ← litChars "stable".data s
  let s ← takeSpaces1 s
  let s := optChar '\\' s
  let s ← litChars "->".data s
  let s ← takeSpaces1 s
  let s := optChar '.' s
  let s := optChar '.' s
  let s := optChar '/' s
  let s := optChar '.' s
  let s := optChar '/' s
  let (a, s) ← takeDigits1 s
  let s ← litChars ['.'] s
  let (b, s) ← takeDigits1 s
  let s ← litChars ['.'] s
  let (c, _) ← takeDigits1 s
  return a ++ '.' :: b ++ '.' :: c

/-- `re.search` of the stable-symlink regex: try every start position,
leftmost match wins (get_latest_nvda.py:33). -/
def searchStable : List Char → Option (List Char)
  | [] => none
  | c :: rest =>
    match matchStableAt (c :: rest) with
    | some v => some v
    | none => searchStable rest

/-- `re.match(r'^(\d{4}\.\d+\.\d+)\s+', line)` (get_latest_nvda.py:42):
anchored at the start, exactly four digits, then `.digits.digits`, then
at least one whitespace char; returns the captured version. -/
def matchVersionLine (s : List Char) : Option (List Char) :=
  match s with
  | d1 :: d2 :: d3 :: d4 :: rest =>
    if d1.isDigit && d2.isDigit && d3.isDigit && d4.isDigit then do
      let r ← litChars ['.'] rest
      let (b, r) ← takeDigits1 r
      let r ← litChars ['.'] r
      let (c, r) ← takeDigits1 r
      let _ ← takeSpaces1 r
      return d1 :: d2 :: d3 :: d4 :: '.' :: b ++ '.' :: c
    else none
  | _ => none

/-- Bool test that `needle` is a contiguous run at the front of `hay`. -/
def leadsWith : List Char → List Char → Bool
  | [], _ => true
  | _ :: _, [] => false
  | a :: as, b :: bs => a = b && leadsWith as bs

/-- Python's `needle in hay` substring test on character lists. -/
def containsSub (needle : List Char) : List Char → Bool
  | [] => leadsWith needle []
  | c :: rest => leadsWith needle (c :: rest) || containsSub needle rest

/-- Python's `needle in hay` on strings. -/
def strContainsSub (hay needle : String) : Bool :=
  containsSub needle.data hay.data

/-- The line filter of get_latest_nvda.py:27: a line containing both
`"stable"` and `"->"`. -/
def stablePred (l : List Char) : Bool :=
  containsSub "stable".data l && containsSub "->".data l

/-- Embeds get_latest_nvda.py:25-35: find the first stable-symlink line and
run the stable regex over it; `none` when no such line exists or the regex
does not match (both cases fall through to the version scan). -/
def stableVersion (pageLines : List (List Char)) : Option (List Char) :=
  match pageLines.find? stablePred with
  | some line => searchStable line
  | none => none

/-- Embeds get_latest_nvda.py:39-44: collect versions from lines matching the
version pattern, excluding lines containing `"beta"` or `"rc"`. -/
def scanVersions (pageLines : List (List Char)) : List (List Char) :=
  pageLines.filterMap fun l =>
    match matchVersionLine l with
    | some v =>
      if containsSub "beta".data l || containsSub "rc".data l then none else some v
    | none => none

/-- The hard-coded last-known-good version (get_latest_nvda.py:51). -/
def FALLBACK_VERSION : List Char := "2024.4.2".data

/-- Embeds `get_latest_nvda_version` (get_latest_nvda.py:12-51) as a function
of the fetched page text (split into lines). The source has no `raise`
statement and no error return: every path yields a plain version string, the
last one being the hard-coded fallback at line 51. -/
def get_latest_nvda_version (pageLines : List (List Char)) : List Char :=
  match stableVersion pageLines with
  | some v => v
  | none =>
    match scanVersions pageLines with
    | v :: _ => v
    | [] => FALLBACK_VERSION

/- Sanity checks of the resolver embedding on concrete page lines. -/

theorem resolver_stable_line_sanity :
    get_latest_nvda_version ["stable -> ././2024.4.2".data] = "2024.4.2".data := by
  decide

theorem resolver_scan_line_sanity :
    get_latest_nvda_version ["2023.1.3  2023-05-01".data] = "2023.1.3".data := by
  decide

theorem resolver_beta_excluded_sanity :
    get_latest_nvda_version ["2023.1.3 beta 2023-05-01".data] = FALLBACK_VERSION := by
  decide

/- ## Workflow wrapper: workflow_tasks.py configure_nvda (C3) -/

/-- Python positional-call binding: a call with `provided` positional
arguments binds iff it supplies at least the required parameters and no more
than the total parameters; otherwise the call raises `TypeError`. -/
def pyCallBindsOk (requiredParams totalParams provided : Nat) : Bool :=
  decide (requiredParams ≤ provided) && decide (provided ≤ totalParams)

/-- `create_portable_copy(version, nvda_path)` (configure_nvda.py:201) has two
required positional parameters and no defaults. -/
def create_portable_copy_required_params : Nat := 2

/-- `workflow_tasks.configure_nvda` (workflow_tasks.py:131-155) calls
`configure_nvda.create_portable_copy(os.environ['NVDA_VERSION'])` with exactly
one positional argument (line 141). -/
def configure_nvda_provided_args : Nat := 1

/-- Embeds `workflow_tasks.configure_nvda` (workflow_tasks.py:131-155).
`portableResult` stands for whatever `create_portable_copy` would return if
the call bound; when the call does not bind, Python raises `TypeError`, which
the `except Exception` block at lines 152-155 converts into a failure
dictionary. -/
def workflow_configure_nvda (portableResult : TaskResult) : TaskResult :=
  if pyCallBindsOk create_portable_copy_required_params
      create_portable_copy_required_params configure_nvda_provided_args then
    portableResult
  else
    { success := false,
      error := some "Failed to configure NVDA: create_portable_copy() missing 1 required positional argument: nvda_path" }

/- ## Verifier: test_nvda_portable.py (C7) -/

/-- The environment the verifier runs against: whether `subprocess.Popen`
succeeds in spawning the executable, and the behaviour of
`socket.connect_ex` per address and port (`Except.error` models a raised
socket exception, `Except.ok r` the returned error code, `0` = connected). -/
structure NetEnv where
  popenOk : Bool
  connectEx : String → Nat → Except Unit Int

/-- Observable outcome of one verifier run: the returned boolean and whether
the `taskkill /f /im nvda.exe` cleanup command was invoked. -/
structure VerifierOutcome where
  success : Bool
  killInvoked : Bool
deriving Repr, DecidableEq

/-- The fixed loopback port probed by the verifier
(test_nvda_portable.py:46). -/
def AUTOMATION_PORT : Nat := 8765

/-- Embeds `test_nvda_portable` (test_nvda_portable.py:21-72).
If `Popen` raises, the outer `except` runs `taskkill` and returns `False`
(lines 65-72). Otherwise a single `connect_ex('127.0.0.1', 8765)` decides
success (`result == 0`); a socket exception is caught by the inner `except`
and records failure (lines 44-57); `taskkill` then always runs (line 61). -/
def test_nvda_portable (env : NetEnv) : VerifierOutcome :=
  if env.popenOk then
    let s :=
      match env.connectEx "127.0.0.1" AUTOMATION_PORT with
      | .ok r => decide (r = 0)
      | .error _ => false
    { success := s, killInvoked := true }
  else
    { success := false, killInvoked := true }

/- ## Portable-Copy Builder wait: configure_nvda.py create_portable_copy (C1) -/

/-- The single fixed wait before the one existence check:
`time.sleep(10)` (configure_nvda.py:259). -/
def PORTABLE_WAIT_TICKS : Nat := 10

/-- Outcome of the builder's wait-for-artifact phase: the tick (seconds after
launching the scheduled task) at which the builder returns, and whether it
reports success. -/
structure WaitOutcome where
  returnTick : Nat
  success : Bool
deriving Repr, DecidableEq

/-- Embeds the wait-and-verify phase of `create_portable_copy`
(configure_nvda.py:258-277): `time.sleep(10)` followed by a single
`os.path.exists(portable_path/nvda.exe)` check. `present t` says whether the
marker file exists `t` seconds after the scheduled task was started. The
builder always returns at tick 10: success when the marker is present then,
otherwise the raise at line 273 is caught at line 274 and a failure result is
returned, still at tick 10. -/
def create_portable_copy_wait (present : Nat → Bool) : WaitOutcome :=
  { returnTick := PORTABLE_WAIT_TICKS, success := present PORTABLE_WAIT_TICKS }

/-- The wait behaviour the claim describes (polling at unit ticks): success
at the first tick `k ≤ timeout` at which the marker is present, otherwise a
timeout failure exactly at `timeout`. Stated from the spec's words, for
comparison with `create_portable_copy_wait`. -/
def claimed_polling_wait (present : Nat → Bool) (timeout : Nat) : WaitOutcome :=
  match (List.range (timeout + 1)).find? present with
  | some k => { returnTick := k, success := true }
  | none => { returnTick := timeout, success := false }

/-- Result dictionary of `create_portable_copy` (configure_nvda.py:271,277). -/
structure CpcResult where
  success : Bool
  portablePath : Option String
  error : Option String
deriving Repr, DecidableEq

/-- `os.path.join(os.getcwd(), f"nvda_{version}_portable")`
(configure_nvda.py:221). -/
def portable_path (cwd version : String) : String :=
  cwd ++ "\\nvda_" ++ version ++ "_portable"

/-- Embeds `create_portable_copy` (configure_nvda.py:201-277) at the level of
its observable result. When `is_admin()` is false the function raises before
the `try` block (line 217), which propagates to the caller (`Except.error`).
Otherwise the scheduled task is created and run, the builder sleeps 10
seconds, and the single marker check decides between the success dictionary
(line 271) and the failure dictionary produced by the `except` block
(lines 273-277). -/
def create_portable_copy (isAdmin : Bool) (cwd version : String)
    (present : Nat → Bool) : Except String CpcResult :=
  if ¬ isAdmin then
    .error "Administrator privileges are required to create a portable copy. Please run this script as an administrator."
  else if present PORTABLE_WAIT_TICKS then
    .ok { success := true, portablePath := some (portable_path cwd version), error := none }
  else
    .ok { success := false, portablePath := none,
          error := some "Failed to create portable copy: Portable copy was not created successfully" }

/-- C1 counterexample: in the run whose marker file first appears at tick 3
(within the 10-tick maximum wait), the polling behaviour the claim describes
would return success at tick 3, but `create_portable_copy`'s wait returns at
tick 10 — the builder is a single fixed sleep plus one check, not a polling
loop, so it does not return at the tick the marker appears. -/
theorem claim_C1_counterexample :
    (claimed_polling_wait (fun t => decide (3 ≤ t)) 10).returnTick = 3 ∧
    (create_portable_copy_wait (fun t => decide (3 ≤ t))).returnTick = 10 ∧
    (create_portable_copy_wait (fun t => decide (3 ≤ t))).success = true ∧
    (3 : Nat) ≠ 10 := by
  refine ⟨by decide, rfl, by decide, by decide⟩

/-- C1 amended: the wait for the portable artifact is a single fixed
10-second sleep followed by one existence check, not a polling loop: in
every run the builder returns exactly at tick 10, reporting success iff the
marker file is present at tick 10 (a marker appearing at an earlier tick is
only observed at tick 10, and a marker absent at tick 10 yields the failure
result at tick 10); accordingly the admin-elevated builder returns a result
dictionary whose success flag equals the marker's presence at tick 10. -/
theorem claim_C1_amended (present : Nat → Bool) (cwd version : String) :
    (create_portable_copy_wait present).returnTick = PORTABLE_WAIT_TICKS ∧
    (create_portable_copy_wait present).success = present PORTABLE_WAIT_TICKS ∧
    ∃ r, create_portable_copy true cwd version present = .ok r ∧
      r.success = present PORTABLE_WAIT_TICKS := by
  refine ⟨rfl, rfl, ?_⟩
  by_cases h : present PORTABLE_WAIT_TICKS = true
  · exact ⟨CpcResult.mk true (some (portable_path cwd version)) none,
      by simp [create_portable_copy, h], by simp [h]⟩
  · rw [Bool.not_eq_true] at h
    exact ⟨CpcResult.mk false none
        (some "Failed to create portable copy: Portable copy was not created successfully"),
      by simp [create_portable_copy, h], by simp [h]⟩

/-- C3: for every possible outcome of the inner call,
`workflow_tasks.configure_nvda` returns `success = false`: it passes a single
positional argument to `create_portable_copy`, which requires two, so the
call raises `TypeError` and the wrapper's `except` block converts it into a
failure result — the task can never succeed. -/
theorem claim_C3 (portableResult : TaskResult) :
    (workflow_configure_nvda portableResult).success = false ∧
    (workflow_configure_nvda portableResult).error ≠ none := by
  exact ⟨rfl, fun hcon => Option.noConfusion hcon⟩

/-- C7: for every environment, the verifier's returned success value is true
iff the process spawn succeeded and the single TCP connect to loopback port
8765 returned 0, and in every case — success, connection failure, socket
exception, or spawn failure — the `taskkill` cleanup is invoked. -/
theorem claim_C7 (env : NetEnv) :
    (test_nvda_portable env).killInvoked = true ∧
    ((test_nvda_portable env).success = true ↔
      env.popenOk = true ∧ env.connectEx "127.0.0.1" AUTOMATION_PORT = .ok 0) := by
  constructor
  · cases h : env.popenOk <;> simp [test_nvda_portable, h]
  · cases h : env.popenOk
    · simp [test_nvda_portable, h]
    · cases hc : env.connectEx "127.0.0.1" AUTOMATION_PORT with
      | ok r =>
        simp [test_nvda_portable, h, hc]
      | error e =>
        simp [test_nvda_portable, h, hc]

/-- C8: for every version string matching the dotted numeric pattern, the URL
builder returns a URL containing that exact string, and for version
`2024.4.2` it returns the expected concrete URL. -/
theorem claim_C8 (v : String) (h : matchesDottedNumeric v = true) :
    (∃ p q, get_nvda_download_url v = p ++ v ++ q) ∧
    get_nvda_download_url "2024.4.2" =
      "https://download.nvaccess.org/releases/2024.4.2/nvda_2024.4.2.exe" := by
  exact ⟨⟨"https://download.nvaccess.org/releases/" ++ v ++ "/nvda_", ".exe", rfl⟩, rfl⟩

/-- C8 witness: the theorem applied at the concrete version `2024.4.2`. -/
theorem claim_C8_witness :
    (∃ p q, get_nvda_download_url "2024.4.2" = p ++ "2024.4.2" ++ q) ∧
    get_nvda_download_url "2024.4.2" =
      "https://download.nvaccess.org/releases/2024.4.2/nvda_2024.4.2.exe" :=
  claim_C8 "2024.4.2" (by decide)

/-- C2 counterexample: given a fetched page in which no version pattern
matches (here the empty page), `get_latest_nvda_version` does not fail at
all: it returns the hard-coded last-known-good version itself (line 51 of
get_latest_nvda.py). The fallback happens silently inside the resolver, not
in the caller, and no `ResolutionError` is raised — the embedding is a total
function into version strings because the source has no raise statement and
no error path. -/
theorem claim_C2_counterexample :
    get_latest_nvda_version [] = FALLBACK_VERSION ∧
    FALLBACK_VERSION = "2024.4.2".data :=
  ⟨rfl, rfl⟩

/-- C2 amended: whenever the stable-symlink search yields nothing and the
version scan finds no matching line, the resolver silently returns the
hard-coded last-known-good version `2024.4.2` itself; there is no
`ResolutionError`, and the fallback is performed inside
`get_latest_nvda_version`, not by the caller. (An unreachable page surfaces
as an uncaught `requests` exception, likewise not a `ResolutionError`.) -/
theorem claim_C2_amended (pageLines : List (List Char))
    (h1 : stableVersion pageLines = none) (h2 : scanVersions pageLines = []) :
    get_latest_nvda_version pageLines = FALLBACK_VERSION := by
  simp [get_latest_nvda_version, h1, h2]

/-- C2 witness: the amended theorem applied to the empty page. -/
theorem claim_C2_witness :
    get_latest_nvda_version [] = FALLBACK_VERSION :=
  claim_C2_amended [] rfl rfl

/- ## Installer Fetcher: workflow_tasks.py download_nvda_installer (C4) -/

/-- An HTTP response: final status code and body bytes. -/
structure HttpResponse where
  status : Nat
  content : List Nat

/-- `requests.Response.raise_for_status` raises `HTTPError` exactly for
client-error and server-error status codes (400-599); other statuses are
passed through. -/
def raiseForStatusFails (r : HttpResponse) : Bool :=
  decide (400 ≤ r.status) && decide (r.status < 600)

/-- The filesystem as a map from path to file bytes (`none` = no file). -/
abbrev FileSystem := String → Option (List Nat)

/-- Writing a file: `open(path, 'wb')` followed by `write(content)` creates
the file at `path` with exactly `content` as its bytes (an empty `content`
still creates the file). -/
def fsWrite (fs : FileSystem) (path : String) (content : List Nat) : FileSystem :=
  fun p => if p = path then some content else fs p

/-- The fixed output path of the installer fetcher
(workflow_tasks.py:66). -/
def INSTALLER_PATH : String := "nvda_installer.exe"

/-- Embeds `download_nvda_installer` (workflow_tasks.py:55-78).
`raise_for_status` (line 64) raises before any file is opened, so on a
4xx/5xx response the filesystem is untouched; otherwise the body is written
to `nvda_installer.exe` (lines 66-68) and only then is the zero-size check
performed (line 70), whose raise the `except` block converts into a failure
result — with the just-written empty file left in place. -/
def download_nvda_installer (fs : FileSystem) (resp : HttpResponse) :
    FileSystem × TaskResult :=
  if raiseForStatusFails resp then
    (fs, { success := false, error := some "Failed to download NVDA installer: HTTPError" })
  else
    let fs1 := fsWrite fs INSTALLER_PATH resp.content
    if resp.content.length = 0 then
      (fs1, { success := false,
              error := some "Failed to download NVDA installer: Downloaded file is empty or does not exist" })
    else
      (fs1, { success := true, error := none })

/-- C4 counterexample: a 200 response with a zero-byte body makes the
fetcher return a failure result, yet an installer file (of size zero) exists
at `nvda_installer.exe` afterwards — the claim's "writes no output file" is
false for the zero-byte case, because the body is written before the size
check. -/
theorem claim_C4_counterexample :
    ((download_nvda_installer (fun _ => none) (HttpResponse.mk 200 [])).2.success = false) ∧
    ((download_nvda_installer (fun _ => none) (HttpResponse.mk 200 [])).1 INSTALLER_PATH
      = some []) := by
  refine ⟨rfl, ?_⟩
  simp [download_nvda_installer, raiseForStatusFails, fsWrite]

/-- C4 amended: the fetcher returns a failure result exactly when the
response status is an HTTP error (400-599) or the body is empty; on an error
status the filesystem is unchanged (no file written), but on a zero-byte
body with a non-error status a zero-byte file is left at
`nvda_installer.exe`. -/
theorem claim_C4_amended (fs : FileSystem) (resp : HttpResponse) :
    ((download_nvda_installer fs resp).2.success = false ↔
      (400 ≤ resp.status ∧ resp.status < 600) ∨ resp.content = []) ∧
    (400 ≤ resp.status → resp.status < 600 →
      (download_nvda_installer fs resp).1 = fs) ∧
    (¬ (400 ≤ resp.status ∧ resp.status < 600) → resp.content = [] →
      (download_nvda_installer fs resp).1 INSTALLER_PATH = some []) := by
  have hiff : raiseForStatusFails resp = true ↔ 400 ≤ resp.status ∧ resp.status < 600 := by
    simp [raiseForStatusFails]
  cases hS : raiseForStatusFails resp with
  | true =>
    refine ⟨?_, ?_, ?_⟩
    · simp [download_nvda_installer, hS, hiff.mp hS]
    · intro _ _
      simp [download_nvda_installer, hS]
    · intro hcon _
      exact absurd (hiff.mp hS) hcon
  | false =>
    have hS' : ¬ (400 ≤ resp.status ∧ resp.status < 600) := fun hp => by
      rw [hiff.mpr hp] at hS
      exact Bool.true_eq_false.mp hS
    by_cases hC : resp.content = []
    · refine ⟨?_, ?_, ?_⟩
      · simp [download_nvda_installer, hS, hC]
      · intro h1 h2
        exact absurd ⟨h1, h2⟩ hS'
      · intro _ _
        simp [download_nvda_installer, hS, hC, fsWrite]
    · refine ⟨?_, ?_, ?_⟩
      · simp [download_nvda_installer, hS, hC, List.length_eq_zero, hS']
      · intro h1 h2
        exact absurd ⟨h1, h2⟩ hS'
      · intro _ hcon
        exact absurd hcon hC

/-- C4 witness: the amended theorem applied to a concrete 404 response with
a nonempty body and to a concrete zero-byte 200 response. -/
theorem claim_C4_amended_witness :
    (download_nvda_installer (fun _ => none) (HttpResponse.mk 404 [7])).1 = (fun _ => none) ∧
    (download_nvda_installer (fun _ => none) (HttpResponse.mk 200 [])).1 INSTALLER_PATH
      = some [] :=
  ⟨(claim_C4_amended (fun _ => none) (HttpResponse.mk 404 [7])).2.1 (by decide) (by decide),
   (claim_C4_amended (fun _ => none) (HttpResponse.mk 200 [])).2.2 (by decide) rfl⟩

/- ## Add-on Fetcher: clone_nvda_plugin.py (C9) -/

/-- The external circumstances one run of `clone_nvda_plugin` meets: the HTTP
status of the archive download, whether the body parses as a zip archive, and
which of the expected entries the extracted tree contains. -/
structure CloneEnv where
  status : Nat
  zipOk : Bool
  hasPluginDir : Bool
  hasManifest : Bool
  hasGlobalInit : Bool
  hasSynthInit : Bool

/-- The result dictionary of `clone_nvda_plugin`: `success` plus either
`plugin_dir` (success) or `error` (failure). -/
structure CloneResult where
  success : Bool
  pluginDir : Option String
  error : Option String
deriving Repr, DecidableEq

/-- Failure dictionary `{"success": False, "error": msg}`. -/
def cloneFail (msg : String) : CloneResult :=
  { success := false, pluginDir := none, error := some msg }

/-- Embeds `clone_nvda_plugin` (clone_nvda_plugin.py:24-96) as a state
transformer on the one observable filesystem fact the claim is about:
whether the `NVDAPlugin` directory exists. The first component of the result
is that fact after the run. Lines 33-36 remove any pre-existing directory
BEFORE the download, so on every subsequent failure path (non-200 status at
lines 43-46, an unreadable archive raising into the `except` at lines 93-96,
a missing NVDAPlugin subdirectory at lines 59-62, or a missing required file
at lines 71-75) the directory stays absent; only the full success path
recreates it via `copytree` (line 85). -/
def clone_nvda_plugin (dirExisted : Bool) (env : CloneEnv) : Bool × CloneResult :=
  if ¬ (env.status = 200) then
    (false, cloneFail ("Failed to download repository: HTTP " ++ toString env.status))
  else if ¬ env.zipOk then
    (false, cloneFail "BadZipFile: File is not a zip file")
  else if ¬ env.hasPluginDir then
    (false, cloneFail "NVDAPlugin directory not found in the repository")
  else if ¬ env.hasManifest then
    (false, cloneFail "Required file not found: manifest.ini")
  else if ¬ env.hasGlobalInit then
    (false, cloneFail "Required file not found: globalPlugins/CommandSocket/__init__.py")
  else if ¬ env.hasSynthInit then
    (false, cloneFail "Required file not found: synthDrivers/captureSpeech/__init__.py")
  else
    (true, { success := true, pluginDir := some "NVDAPlugin", error := none })

/-- C9: the add-on fetcher is not atomic on failure. For every run that
starts with a pre-existing `NVDAPlugin` directory and whose download returns
non-200 or whose structural check fails (missing NVDAPlugin subdirectory,
manifest, or either plugin entry point), the function returns a failure
result and the previously existing directory has already been removed and is
not restored. -/
theorem claim_C9 (env : CloneEnv)
    (h : ¬ (env.status = 200) ∨ env.hasPluginDir = false ∨ env.hasManifest = false ∨
      env.hasGlobalInit = false ∨ env.hasSynthInit = false) :
    (clone_nvda_plugin true env).2.success = false ∧
    (clone_nvda_plugin true env).1 = false := by
  rcases env with ⟨s, z, p, m, g, y⟩
  cases z <;> cases p <;> cases m <;> cases g <;> cases y <;>
    by_cases hs : s = 200 <;>
      simp_all [clone_nvda_plugin, cloneFail]

/-- C9 witness: the theorem applied to a run whose download returns 404. -/
theorem claim_C9_witness :
    (clone_nvda_plugin true (CloneEnv.mk 404 true true true true true)).2.success = false ∧
    (clone_nvda_plugin true (CloneEnv.mk 404 true true true true true)).1 = false :=
  claim_C9 (CloneEnv.mk 404 true true true true true) (Or.inl (by decide))

/- ## Standalone script stdout protocol (C5) -/

/-- JSON values, as far as the scripts produce them. -/
inductive Json where
  | str : String → Json
  | bool : Bool → Json
  | obj : List (String × Json) → Json
deriving Repr

/-- Whether a JSON value is a boolean. -/
def jsonIsBool : Json → Bool
  | .bool _ => true
  | _ => false

/-- Whether a JSON value is an object with a boolean field named
`success`. -/
def hasBoolSuccess : Json → Bool
  | .obj fields => fields.any fun f => f.1 == "success" && jsonIsBool f.2
  | _ => false

/-- Embeds the `__main__` block of get_latest_nvda.py (lines 65-81) as its
list of stdout lines. The only `print` is `print(json.dumps(result))` at
line 81, so stdout is exactly one JSON object line holding `version` and
`url`; the script writes nothing else to stdout on any path. -/
def get_latest_main (argv : List String) (pageLines : List (List Char)) : List Json :=
  let version :=
    match argv with
    | v :: _ => v
    | [] => String.mk (get_latest_nvda_version pageLines)
  [Json.obj [("version", Json.str version), ("url", Json.str (get_nvda_download_url version))]]

/-- Serializes a `CloneResult` the way `json.dumps(result)` at
clone_nvda_plugin.py:101 sees the dictionary: `success` first, then
`plugin_dir` on the success path or `error` on the failure path. -/
def cloneResultJson (r : CloneResult) : Json :=
  Json.obj
    ([("success", Json.bool r.success)] ++
      (match r.pluginDir with
       | some d => [("plugin_dir", Json.str d)]
       | none => []) ++
      (match r.error with
       | some e => [("error", Json.str e)]
       | none => []))

/-- Embeds the `__main__` block of clone_nvda_plugin.py (lines 98-101):
diagnostics go to the log file, stdout is the single line
`json.dumps(result)`. -/
def clone_plugin_main (dirExisted : Bool) (env : CloneEnv) : List Json :=
  [cloneResultJson (clone_nvda_plugin dirExisted env).2]

/-- Embeds the `__main__` block of test_nvda_portable.py (lines 74-91):
with no argument, the usage-failure JSON is printed (line 78); otherwise the
single line `json.dumps({"success": success})` (line 87). The `except` at
lines 88-91 would also print a success/error JSON object, and is unreachable
for the embedded total verifier. -/
def test_portable_main (argv : List String) (env : NetEnv) : List Json :=
  match argv with
  | [] =>
    [Json.obj [("success", Json.bool false),
      ("error", Json.str "Missing arguments. Usage: test_nvda_portable.py <portable_path>")]]
  | _ :: _ =>
    [Json.obj [("success", Json.bool (test_nvda_portable env).success)]]

/-- C5 counterexample: `get_latest_nvda.py` invoked with the explicit
version `2024.4.2` prints exactly one JSON line, and that line has no
boolean `success` field at all — its object holds only `version` and `url`,
so the claim fails for this script. -/
theorem claim_C5_counterexample :
    (get_latest_main ["2024.4.2"] []).map hasBoolSuccess = [false] := by
  decide

/-- C5 amended: the standalone entry points of clone_nvda_plugin.py and
test_nvda_portable.py print, on every execution path, exactly one stdout
line, a single JSON object with a boolean `success` field and no interleaved
diagnostic text (diagnostics go to log files); get_latest_nvda.py also
prints exactly one clean JSON object line, but that object carries only
`version` and `url` and never a `success` field. -/
theorem claim_C5_amended :
    (∀ dirExisted env, (clone_plugin_main dirExisted env).map hasBoolSuccess = [true]) ∧
    (∀ argv env, (test_portable_main argv env).map hasBoolSuccess = [true]) ∧
    (∀ argv pageLines, (get_latest_main argv pageLines).map hasBoolSuccess = [false]) := by
  refine ⟨?_, ?_, ?_⟩
  · intro dirExisted env
    simp [clone_plugin_main, cloneResultJson, hasBoolSuccess, jsonIsBool]
  · intro argv env
    cases argv <;> simp [test_portable_main, hasBoolSuccess, jsonIsBool]
  · intro argv pageLines
    cases argv <;> simp [get_latest_main, hasBoolSuccess, jsonIsBool]

/- ## Installed-executable resolution: configure_nvda.py (C6) -/

/-- `os.environ.get`: the process environment as a partial map. -/
abbrev EnvMap := String → Option String

/-- `os.path.isfile` as a predicate on paths. -/
abbrev FileCheck := String → Bool

/-- `os.path.join(a, b, c)` on Windows. -/
def joinWin (a b c : String) : String :=
  a ++ "\\" ++ b ++ "\\" ++ c

/-- `os.environ.get('ProgramFiles', 'C:\\Program Files')`. -/
def programFilesDir (env : EnvMap) : String :=
  (env "ProgramFiles").getD "C:\\Program Files"

/-- `os.environ.get('ProgramFiles(x86)', 'C:\\Program Files (x86)')`. -/
def programFilesX86Dir (env : EnvMap) : String :=
  (env "ProgramFiles(x86)").getD "C:\\Program Files (x86)"

/-- The ordered candidate list of `find_nvda_exe`
(configure_nvda.py:185-190). -/
def possible_paths (env : EnvMap) : List String :=
  [joinWin (programFilesDir env) "NVDA" "nvda.exe",
   joinWin (programFilesX86Dir env) "NVDA" "nvda.exe",
   joinWin "C:\\Program Files" "NVDA" "nvda.exe",
   joinWin "C:\\Program Files (x86)" "NVDA" "nvda.exe"]

/-- `'\n'.join(f"- {p}" for p in paths)` (configure_nvda.py:198). -/
def pathBullets : List String → String
  | [] => ""
  | [p] => "- " ++ p
  | p :: q :: rest => "- " ++ p ++ "\n" ++ pathBullets (q :: rest)

/-- Embeds `find_nvda_exe` (configure_nvda.py:179-199): return the first
candidate path that is a file, else raise `FileNotFoundError` whose message
lists every checked path. NOTE: this helper has no caller anywhere in the
repository. -/
def find_nvda_exe (env : EnvMap) (isfile : FileCheck) : Except String String :=
  match (possible_paths env).find? isfile with
  | some p => .ok p
  | none =>
    .error ("Could not find nvda.exe. Checked the following paths:\n" ++
      pathBullets (possible_paths env))

/-- Embeds the executable-path resolution actually performed after install,
inside `install_nvda` (configure_nvda.py:139-141): a single check of the
`ProgramFiles(x86)` default location, raising `FileNotFoundError` naming
only that one path. -/
def install_nvda_resolve (env : EnvMap) (isfile : FileCheck) : Except String String :=
  let nvda_path := joinWin (programFilesX86Dir env) "NVDA" "nvda.exe"
  if isfile nvda_path then .ok nvda_path
  else .error ("NVDA executable not found at expected path: " ++ nvda_path)

/-- String append acts as list append on the character data. -/
theorem strData_append (a b : String) : (a ++ b).data = a.data ++ b.data :=
  rfl

/-- A list leads with itself followed by anything. -/
theorem leadsWith_append (n t : List Char) : leadsWith n (n ++ t) = true := by
  induction n with
  | nil => rfl
  | cons a as ih => simp [leadsWith, ih]

/-- A leading occurrence is an occurrence. -/
theorem containsSub_of_leadsWith (n hay : List Char) (h : leadsWith n hay = true) :
    containsSub n hay = true := by
  cases hay with
  | nil => exact h
  | cons c rest => simp [containsSub, h]

/-- An occurrence in the tail is an occurrence. -/
theorem containsSub_cons (n : List Char) (c : Char) (rest : List Char)
    (h : containsSub n rest = true) : containsSub n (c :: rest) = true := by
  simp [containsSub, h]

/-- Any explicit decomposition witnesses the substring test. -/
theorem containsSub_append (pre n post : List Char) :
    containsSub n (pre ++ n ++ post) = true := by
  induction pre with
  | nil => exact containsSub_of_leadsWith n (n ++ post) (leadsWith_append n post)
  | cons c pre ih => exact containsSub_cons n c (pre ++ n ++ post) ih

/-- Every listed path occurs verbatim inside the joined bullet list. -/
theorem pathBullets_contains (paths : List String) (p : String) (hp : p ∈ paths) :
    ∃ a b, (pathBullets paths).data = a ++ p.data ++ b := by
  induction paths with
  | nil => cases hp
  | cons x xs ih =>
    cases hp with
    | head =>
      cases xs with
      | nil =>
        exact ⟨"- ".data, [], by simp [pathBullets, strData_append]⟩
      | cons q rest =>
        refine ⟨"- ".data, "\n".data ++ (pathBullets (q :: rest)).data, ?_⟩
        simp [pathBullets, strData_append]
    | tail _ hmem =>
      cases xs with
      | nil => cases hmem
      | cons q rest =>
        obtain ⟨a, b, hab⟩ := ih hmem
        refine ⟨("- " ++ x ++ "\n").data ++ a, b, ?_⟩
        simp [pathBullets, strData_append, hab]

/-- C6 counterexample: in the environment with no environment variables set
and no file present anywhere, the resolution performed after install
(`install_nvda`, configure_nvda.py:139-141) fails with a message naming only
the single `ProgramFiles(x86)` default path; the 64-bit program-directory
path from the claimed enumeration does not occur in that message, so the
error does not enumerate every checked install directory. -/
theorem claim_C6_counterexample :
    install_nvda_resolve (fun _ => none) (fun _ => false) =
      .error ("NVDA executable not found at expected path: " ++
        joinWin "C:\\Program Files (x86)" "NVDA" "nvda.exe") ∧
    strContainsSub
      ("NVDA executable not found at expected path: " ++
        joinWin "C:\\Program Files (x86)" "NVDA" "nvda.exe")
      (joinWin "C:\\Program Files" "NVDA" "nvda.exe") = false := by
  exact ⟨rfl, by decide⟩

/-- C6 amended: the helper `find_nvda_exe` does fail, when no candidate path
is a file, with an error whose message contains every path in the ordered
candidate list — but that helper is dead code with no caller; the
executable-path resolution actually performed after install (inside
`install_nvda`) checks only the single `ProgramFiles(x86)` default location
and its error names only that one path. -/
theorem claim_C6_amended (env : EnvMap) (isfile : FileCheck)
    (h : ∀ p ∈ possible_paths env, isfile p = false) :
    (∃ msg, find_nvda_exe env isfile = .error msg ∧
      ∀ p ∈ possible_paths env, strContainsSub msg p = true) ∧
    (∃ msg1, install_nvda_resolve env isfile = .error msg1 ∧
      msg1 = "NVDA executable not found at expected path: " ++
        joinWin (programFilesX86Dir env) "NVDA" "nvda.exe") := by
  constructor
  · have hfind : (possible_paths env).find? isfile = none := by
      rw [List.find?_eq_none]
      intro x hx
      simp [h x hx]
    refine ⟨"Could not find nvda.exe. Checked the following paths:\n" ++
      pathBullets (possible_paths env), by simp [find_nvda_exe, hfind], ?_⟩
    intro p hp
    obtain ⟨a, b, hab⟩ := pathBullets_contains (possible_paths env) p hp
    show containsSub p.data _ = true
    rw [strData_append, hab]
    have hre : "Could not find nvda.exe. Checked the following paths:\n".data ++
        (a ++ p.data ++ b) =
        ("Could not find nvda.exe. Checked the following paths:\n".data ++ a) ++ p.data ++ b := by
      simp [List.append_assoc]
    rw [hre]
    exact containsSub_append _ p.data b
  · have hx86 : isfile (joinWin (programFilesX86Dir env) "NVDA" "nvda.exe") = false := by
      apply h
      simp [possible_paths]
    exact ⟨_, by simp [install_nvda_resolve, hx86], rfl⟩

/-- C6 witness: the amended theorem applied to the empty environment with no
files present. -/
theorem claim_C6_witness :
    (∃ msg, find_nvda_exe (fun _ => none) (fun _ => false) = .error msg ∧
      ∀ p ∈ possible_paths (fun _ => none), strContainsSub msg p = true) ∧
    (∃ msg1, install_nvda_resolve (fun _ => none) (fun _ => false) = .error msg1 ∧
      msg1 = "NVDA executable not found at expected path: " ++
        joinWin (programFilesX86Dir (fun _ => none)) "NVDA" "nvda.exe") :=
  claim_C6_amended (fun _ => none) (fun _ => false) (fun _ _ => rfl)

/- ## Process-wide cwd mutation: workflow_tasks.py create_plugin_addon (C10) -/

/-- Process state: the current working directory as path components. -/
structure ProcState where
  cwd : List String
deriving Repr, DecidableEq

/-- Resolution of a relative path (as components) against the process
current working directory. -/
def resolveRel (st : ProcState) (rel : List String) : List String :=
  st.cwd ++ rel

/-- Outcome of one `create_plugin_addon` run: the process state afterwards
and the returned result. -/
structure AddonStepOutcome where
  state : ProcState
  result : TaskResult
deriving Repr, DecidableEq

/-- Embeds `create_plugin_addon` (workflow_tasks.py:105-129).
`os.chdir('NVDAPlugin')` at line 113 appends `NVDAPlugin` to the process
cwd; no path in the function restores it, on the success path or in the
`except` block, so the mutated cwd survives the call. `chdirOk` is whether
the `chdir` itself succeeds (the directory exists); `zipOk` is whether the
archive creation succeeds. -/
def create_plugin_addon (st : ProcState) (chdirOk zipOk : Bool) : AddonStepOutcome :=
  if chdirOk then
    let stNew : ProcState := ProcState.mk (st.cwd ++ ["NVDAPlugin"])
    if zipOk then
      AddonStepOutcome.mk stNew (TaskResult.mk true none)
    else
      AddonStepOutcome.mk stNew (TaskResult.mk false (some "Failed to create addon"))
  else
    AddonStepOutcome.mk st (TaskResult.mk false (some "Failed to create addon"))

/-- The relative output path `f"{os.environ['NVDA_VERSION']}.zip"` used by
`package_nvda` (workflow_tasks.py:185). -/
def package_nvda_zip_rel (version : String) : List String :=
  [version ++ ".zip"]

/-- C10: every invocation of `create_plugin_addon` that reaches the
`os.chdir` leaves the process cwd changed to `NVDAPlugin` (on success and on
failure alike — it is never restored), so every relative path a later step
in the same process resolves — in particular `package_nvda`'s output archive
`<version>.zip` — lands inside the `NVDAPlugin` directory, not in the
original working directory. -/
theorem claim_C10 (st : ProcState) (zipOk : Bool) (version : String)
    (rel : List String) :
    (create_plugin_addon st true zipOk).state.cwd = st.cwd ++ ["NVDAPlugin"] ∧
    resolveRel (create_plugin_addon st true zipOk).state rel =
      st.cwd ++ "NVDAPlugin" :: rel ∧
    resolveRel (create_plugin_addon st true zipOk).state (package_nvda_zip_rel version) =
      st.cwd ++ ["NVDAPlugin", version ++ ".zip"] ∧
    resolveRel (create_plugin_addon st true zipOk).state (package_nvda_zip_rel version) ≠
      resolveRel st (package_nvda_zip_rel version) := by
  cases zipOk <;>
    refine ⟨rfl, by simp [resolveRel, create_plugin_addon],
      by simp [resolveRel, create_plugin_addon, package_nvda_zip_rel], fun hcon => ?_⟩ <;>
    · have hlen := congrArg List.length hcon
      simp [resolveRel, create_plugin_addon, package_nvda_zip_rel] at hlen
